import Mathlib

/-!
Shallow embedding of the polygnn_trainer example pipeline (src/example.py)
and of the external collaborators it calls (sklearn's train_test_split,
skopt's gp_minimize, and the polygnn_trainer library helpers), the latter
modelled from the specification since their code is not in the repository.
-/

namespace Polygnn

/-! ## Constants (src/example.py lines 29-46) -/

/-- Constant RANDOM_SEED (line 29). -/
def RANDOM_SEED : Nat := 100

/-- Constant HP_EPOCHS (line 30). -/
def HP_EPOCHS : Nat := 20

/-- Constant SUBMODEL_EPOCHS (line 31). -/
def SUBMODEL_EPOCHS : Nat := 100

/-- Constant N_FOLDS (line 32). -/
def N_FOLDS : Nat := 3

/-- Constant HP_NCALLS (line 33). -/
def HP_NCALLS : Nat := 10

/-- Constant MAX_BATCH_SIZE (line 34). -/
def MAX_BATCH_SIZE : Int := 50

/-- Constant N_FEATURES (line 45). -/
def N_FEATURES : Nat := 512

/-- Constant OPT_CAPACITY (line 46). -/
def OPT_CAPACITY : Nat := 2

/-- The PROPERTY_GROUPS dict (lines 37-44): one group, "electronic". -/
def PROPERTY_GROUPS : List (String × List String) :=
  [("electronic", ["Egc", "Egb", "Ea", "Ei"])]

/-! ## Data model -/

/-- One labeled record: a property name and a scalar target value
(one row of the master_data table; the molecule string is kept separately
where needed). -/
structure Record where
  prop : String
  value : Int
deriving DecidableEq, Repr

/-! ## Selector dimension and model input dimension (claim C2) -/

/-- Transcription of lines 100-104: nprops = len(prop_cols); selector_dim
is 0 when nprops == 1 and nprops otherwise. -/
def selector_dim (prop_cols : List String) : Nat :=
  if prop_cols.length = 1 then 0 else prop_cols.length

/-- The input_dim argument passed to pt.models.MlpOut (lines 160-164, and
again at lines 218-222 and 239-242): N_FEATURES + selector_dim. -/
def mlp_input_dim (prop_cols : List String) : Nat :=
  N_FEATURES + selector_dim prop_cols

/-- The sorted property columns of a group (line 94: sorted(PROPERTY_GROUPS[group])). -/
def sorted_prop_cols (group : List String) : List String :=
  List.insertionSort (· ≤ ·) group

/-! ## Seed threading (claim C5) -/

/-- Arguments of a train_test_split call that matter for determinism. -/
structure SplitCallArgs where
  test_size : Rat
  random_state : Nat
deriving DecidableEq

/-- The train/test split call (lines 69-74): test_size=0.2, random_state=RANDOM_SEED. -/
def train_test_split_call : SplitCallArgs :=
  { test_size := 1/5, random_state := RANDOM_SEED }

/-- The fit/validation split call (lines 127-132): test_size=0.2, random_state=RANDOM_SEED. -/
def fit_val_split_call : SplitCallArgs :=
  { test_size := 1/5, random_state := RANDOM_SEED }

/-- The random_seed argument passed to pt.train.train_kfold_ensemble (line 229). -/
def train_kfold_ensemble_random_seed : Nat := RANDOM_SEED

/-! ## CLI device selection (claim C7) -/

/-- The devices the trained models can live on. -/
inductive Device where
  | cpu
  | cuda
deriving DecidableEq, Repr

/-- The choices list of the --device argparse argument (lines 22-24). -/
def device_choices : List String := ["cpu", "gpu"]

/-- Argparse validation of --device (lines 22-24): a value outside the
choices list is rejected (argparse exits with an error, modelled as none). -/
def parse_device_arg (s : String) : Option String :=
  if s ∈ device_choices then some s else none

/-- Transcription of lines 57-60: if args.device == "cpu" the device is the
CPU; elif args.device == "gpu" the device is cuda when available else cpu.
The elif chain has no final else, so any other value leaves the device
undefined, modelled as none. -/
def select_device (cuda_is_available : Bool) (arg : String) : Option Device :=
  if arg = "cpu" then some Device.cpu
  else if arg = "gpu" then
    some (if cuda_is_available then Device.cuda else Device.cpu)
  else none

/-- The CLI device selector end to end: argparse validation, then the
if/elif chain of lines 57-60. -/
def cli_device (cuda_is_available : Bool) (s : String) : Option Device :=
  (parse_device_arg s).bind (select_device cuda_is_available)

/-! ## Hyperparameter configurations (claims C8, C3, C10) -/

/-- The activation functions appearing in this run (nn.functional.leaky_relu). -/
inductive Activation where
  | leakyRelu
deriving DecidableEq

/-- An HpConfig as populated by HpConfig().set_values in this run: r_learn,
batch_size and dropout_pct of caller-chosen numeric types, plus capacity and
activation. -/
structure HpConfig (R B D : Type) where
  r_learn : R
  batch_size : B
  dropout_pct : D
  capacity : Nat
  activation : Activation

/-- Transcription of lines 139-149 (inside obj_func): the HpConfig evaluated
at search point x, namely r_learn = 10 ** x[0], batch_size = x[1],
dropout_pct = x[2], capacity = OPT_CAPACITY, activation = leaky_relu.
Floating-point exponentiation is external, so 10 ** x[0] is written through
a caller-supplied power function pow10. -/
def obj_func_hps (pow10 : R → R) (x0 : R) (x1 : B) (x2 : D) : HpConfig R B D :=
  { r_learn := pow10 x0
    batch_size := x1
    dropout_pct := x2
    capacity := OPT_CAPACITY
    activation := Activation.leakyRelu }

/-- Transcription of lines 189-198: the HpConfig built from the optimizer's
returned best point opt_obj.x and then used for ensemble training and
persistence. -/
def optimal_hps (pow10 : R → R) (x0 : R) (x1 : B) (x2 : D) : HpConfig R B D :=
  { r_learn := pow10 x0
    batch_size := x1
    dropout_pct := x2
    capacity := OPT_CAPACITY
    activation := Activation.leakyRelu }

/-- One search trial: a point in hyperparameter space together with its
observed validation score (the SearchTrial of the data model). -/
structure SearchTrial (P : Type) where
  point : P
  score : Rat

/-- Modelled from the spec: skopt's gp_minimize is external to this
repository. Per the spec the optimizer loops for a fixed budget of n_calls
trials; each iteration proposes the next point (space-filling warm-up or
surrogate/acquisition maximization, both modelled by the propose function,
which sees all trials so far) and evaluates the objective exactly once on
it, appending the resulting trial. -/
def gp_minimize_trials (obj : P → Rat) (propose : List (SearchTrial P) → P) :
    Nat → List (SearchTrial P)
  | 0 => []
  | n + 1 =>
    let ts := gp_minimize_trials obj propose n
    ts ++ [{ point := propose ts, score := obj (propose ts) }]

/-- The n_calls argument passed to gp_minimize at lines 182-187. -/
def gp_minimize_n_calls : Nat := HP_NCALLS

/-! ## The hyperparameter search space (claim C10) -/

/-- Python's built-in round (round half to even) on an exact rational. The
source computes round(0.25 * MAX_BATCH_SIZE); 0.25 and 12.5 are exactly
representable in binary floating point, so the rational model is exact. -/
def pyRound (q : Rat) : Int :=
  let f := ⌊q⌋
  let frac := q - (f : Rat)
  if frac < 1/2 then f
  else if (1 : Rat)/2 < frac then f + 1
  else if f % 2 = 0 then f else f + 1

/-- The batch-size dimension of hp_space (line 177):
(round(0.25 * MAX_BATCH_SIZE), MAX_BATCH_SIZE). -/
def hp_space_batch_dim : Int × Int :=
  (pyRound ((1/4) * (MAX_BATCH_SIZE : Rat)), MAX_BATCH_SIZE)

/-- Modelled from the spec: the optimizer searches a declared
box-constrained space, so every point it proposes lies within the
dimension's bounds; an arbitrary raw proposal is clamped into the box. -/
def propose_in_batch_dim (raw : Int) : Int :=
  max hp_space_batch_dim.1 (min hp_space_batch_dim.2 raw)

/-! ## Dataset splitting (claims C6, C9) -/

/-- A deterministic pseudo-random key derived from the seed and a record's
positional index (a linear congruential mix). -/
def pseudo_key (seed i : Nat) : Nat :=
  (1103515245 * (seed + i) + 12345) % 2147483648

/-- The seeded deterministic shuffle of the indexed records: stable
insertion sort by the pseudo-random key of each index. -/
def seeded_shuffle (seed : Nat) (xs : List (Nat × Record)) : List (Nat × Record) :=
  List.insertionSort (fun a b => pseudo_key seed a.1 ≤ pseudo_key seed b.1) xs

/-- The distinct stratification classes of a record list in
first-occurrence order (the values of the prop column, line 72:
stratify=master_data.prop). -/
def strat_classes (rs : List Record) : List String :=
  (rs.map Record.prop).dedup

/-- The number of records carrying a given property label. -/
def class_count (rs : List Record) (p : String) : Nat :=
  rs.countP (fun r => decide (r.prop = p))

/-- The test-set cardinality for test_size = 0.2 on n records: the ceiling
of n / 5, as sklearn computes ceil(test_size * n). -/
def test_count (n : Nat) : Nat := (n + 4) / 5

/-- Stratification feasibility: every class needs at least two members and
both output sides must be able to receive one member of each class;
otherwise sklearn raises (InsufficientDataError in the spec). -/
def stratify_ok (rs : List Record) : Bool :=
  (strat_classes rs).all (fun p => decide (2 ≤ class_count rs p)) &&
    decide ((strat_classes rs).length ≤ test_count rs.length) &&
    decide ((strat_classes rs).length ≤ rs.length - test_count rs.length)

/-- Modelled from the spec: sklearn's train_test_split is external to this
repository. Per the spec it is a pure function of the record list and the
seed: it validates stratification feasibility, deterministically shuffles
the indexed records under the seed, and partitions them into a test part of
ceil(0.2 * n) records and a train part holding the rest, returned as
(train, test). -/
def train_test_split (seed : Nat) (rs : List Record) :
    Option (List (Nat × Record) × List (Nat × Record)) :=
  if stratify_ok rs then
    some ((seeded_shuffle seed rs.enum).drop (test_count rs.length),
      (seeded_shuffle seed rs.enum).take (test_count rs.length))
  else none

/-- Five one-class records used to exercise the split concretely. -/
def split_demo_records : List Record :=
  [{ prop := "Egc", value := 1 }, { prop := "Egc", value := 2 },
   { prop := "Egc", value := 3 }, { prop := "Egc", value := 4 },
   { prop := "Egc", value := 5 }]

/-- Three one-class records used to exercise the split-size assertion
concretely. -/
def assert_demo_records : List Record :=
  [{ prop := "Egb", value := 1 }, { prop := "Egb", value := 2 },
   { prop := "Egb", value := 3 }]

/-! ## Featurization (claim C4) -/

/-- A parsed molecule. rdkit's Chem.MolFromSmiles is external; only parse
success or failure is observable here, so the molecule just carries the
string it was parsed from. -/
structure Mol where
  smiles : String
deriving DecidableEq

/-- The replacement at line 79: smile.replace("*", "H"). The pattern is a
single character, so Python's substring replace coincides with a
character-by-character map. -/
def replace_star (s : String) : String :=
  String.mk (s.data.map (fun c => if c = '*' then 'H' else c))

/-- Transcription of lines 78-85 (morgan_featurizer): replace stars, parse
with Chem.MolFromSmiles, then build the fingerprint data object. When the
SMILES is unparseable, MolFromSmiles returns None and the fingerprint call
on None raises; there is no try/except, so the failure propagates (none).
The external parser and fingerprint computation are parameters. -/
def morgan_featurizer (molFromSmiles : String → Option Mol)
    (fingerprint : Mol → F) (smile : String) : Option F :=
  (molFromSmiles (replace_star smile)).map fingerprint

/-- Featurization of a table of SMILES, record by record, as prepare_train
applies morgan_featurizer to each row: an exception on any record aborts
the whole featurization (none), since nothing in the code catches it or
drops the failing record. -/
def featurize_all (molFromSmiles : String → Option Mol)
    (fingerprint : Mol → F) : List String → Option (List F)
  | [] => some []
  | s :: rest =>
    match morgan_featurizer molFromSmiles fingerprint s with
    | none => none
    | some f => (featurize_all molFromSmiles fingerprint rest).map (fun fs => f :: fs)

/-- A concrete stand-in parser for the counterexample: parses the SMILES
"CC" and nothing else. -/
def demo_mol_from_smiles : String → Option Mol :=
  fun s => if s = "CC" then some { smiles := s } else none

/-- A concrete stand-in fingerprint computation for the counterexample. -/
def demo_fingerprint : Mol → Nat := fun _ => 0

/-! ## Scaler fitting (claim C1) -/

/-- A fitted scaling transform for one property, modelled from the spec as
a statistic fitted on the target values it is given (the mean; std is
analogous). -/
def fit_scaler (vals : List Int) : Rat :=
  ((vals.sum : Int) : Rat) / (vals.length : Rat)

/-- Modelled from the spec: pt.prepare.prepare_train is polygnn_trainer
library code outside src/. Per the spec it returns the prepared data
together with a ScalerDict mapping each property name to a scaling
transform fitted on the target values of the records it is given. -/
def prepare_train (prop_cols : List String) (records : List Record) :
    List Record × List (String × Rat) :=
  (records,
    prop_cols.map (fun p =>
      (p, fit_scaler ((records.filter (fun r => r.prop = p)).map Record.value))))

/-- Transcription of lines 108-118: the group's train and test rows are
selected, concatenated into group_data, and prepare_train is called on the
concatenation; its second result is the scaler_dict used for submodel
training (line 169), ensemble training (line 226) and inference metrics
(line 258). -/
def group_scaler_dict (prop_cols : List String)
    (train_data test_data : List Record) : List (String × Rat) :=
  let group_train_data := train_data.filter (fun r => r.prop ∈ prop_cols)
  let group_test_data := test_data.filter (fun r => r.prop ∈ prop_cols)
  let group_data := group_train_data ++ group_test_data
  (prepare_train prop_cols group_data).2

end Polygnn

namespace Polygnn

/-- Trial lists grow by exactly one trial per budget unit: after n budget
units the optimizer has recorded n trials, hence n objective evaluations. -/
theorem gp_minimize_trials_length (obj : P → Rat)
    (propose : List (SearchTrial P) → P) (n : Nat) :
    (gp_minimize_trials obj propose n).length = n := by
  induction n with
  | zero => rfl
  | succ n ih => simp [gp_minimize_trials, ih]

/-- C2: for every property group, selector_dim is 0 when the group has
exactly one property and the group's cardinality otherwise, and the model
input dimension is the feature length plus selector_dim. -/
theorem selector_dim_and_input_dim (group : List String) :
    (group.length = 1 → selector_dim group = 0) ∧
    (group.length ≠ 1 → selector_dim group = group.length) ∧
    mlp_input_dim group = N_FEATURES + selector_dim group := by
  refine ⟨fun h => ?_, fun h => ?_, rfl⟩
  · simp [selector_dim, h]
  · simp [selector_dim, h]

/-- Witness for C2 at the concrete "electronic" group of the run: its sorted
property columns have four entries, so selector_dim is 4 and the model input
dimension is 512 + 4. -/
theorem selector_dim_and_input_dim_witness :
    selector_dim (sorted_prop_cols ["Egc", "Egb", "Ea", "Ei"]) = 4 ∧
    mlp_input_dim (sorted_prop_cols ["Egc", "Egb", "Ea", "Ei"]) =
      N_FEATURES + selector_dim (sorted_prop_cols ["Egc", "Egb", "Ea", "Ei"]) := by
  have hs : sorted_prop_cols ["Egc", "Egb", "Ea", "Ei"] = ["Ea", "Egb", "Egc", "Ei"] := by
    simp [sorted_prop_cols, List.insertionSort, List.orderedInsert]
    decide
  refine ⟨?_, (selector_dim_and_input_dim (sorted_prop_cols ["Egc", "Egb", "Ea", "Ei"])).2.2⟩
  have h := (selector_dim_and_input_dim
    (sorted_prop_cols ["Egc", "Egb", "Ea", "Ei"])).2.1 (by rw [hs]; decide)
  rw [h, hs]
  rfl

/-- C5: the random seed passed to train_kfold_ensemble equals the seed used
for the train/test split and the seed used for the fit/validation split. -/
theorem kfold_seed_eq_split_seeds :
    train_kfold_ensemble_random_seed = train_test_split_call.random_state ∧
    train_kfold_ensemble_random_seed = fit_val_split_call.random_state := by
  exact ⟨rfl, rfl⟩

/-- C7: the CLI device selector maps "cpu" to the CPU, maps "gpu" to the
accelerator when one is available and to the CPU otherwise, and rejects
every other argument value. -/
theorem cli_device_spec (b : Bool) :
    cli_device b "cpu" = some Device.cpu ∧
    cli_device true "gpu" = some Device.cuda ∧
    cli_device false "gpu" = some Device.cpu ∧
    (∀ s : String, s ∉ device_choices → cli_device b s = none) := by
  refine ⟨rfl, rfl, rfl, fun s hs => ?_⟩
  simp [cli_device, parse_device_arg, hs]

/-- Witness for C7: "tpu" is not among the choices and is rejected. -/
theorem cli_device_spec_witness :
    ("tpu" : String) ∉ device_choices ∧ cli_device true "tpu" = none :=
  ⟨by decide, (cli_device_spec true).2.2.2 "tpu" (by decide)⟩

/-- C3: the optimizer is invoked with a fixed trial budget equal to the
HP_NCALLS constant, which is 10, and under that budget it evaluates the
objective (records a trial) exactly 10 times, whatever the objective and
proposal strategy are. -/
theorem gp_minimize_budget_ncalls (P : Type) (obj : P → Rat)
    (propose : List (SearchTrial P) → P) :
    gp_minimize_n_calls = HP_NCALLS ∧ HP_NCALLS = 10 ∧
    (gp_minimize_trials obj propose gp_minimize_n_calls).length = 10 :=
  ⟨rfl, rfl, gp_minimize_trials_length obj propose 10⟩

/-- C8: the point-to-config mapping applied to the optimizer's returned
best point (lines 189-198) is exactly the mapping used inside the objective
function (lines 139-149), so at every point, in particular at the best
observed trial point, the persisted config equals the config that was
evaluated there. -/
theorem optimal_hps_eq_obj_func_hps (R B D : Type) (pow10 : R → R)
    (x0 : R) (x1 : B) (x2 : D) :
    optimal_hps pow10 x0 x1 x2 = obj_func_hps pow10 x0 x1 x2 := rfl

/-- Unpacking a successful split: the train part is the seeded shuffle with
the first ceil(n/5) records removed, the test part is those records, and
the stratification checks passed. -/
theorem train_test_split_eq (seed : Nat) (rs : List Record)
    (tr te : List (Nat × Record))
    (h : train_test_split seed rs = some (tr, te)) :
    tr = (seeded_shuffle seed rs.enum).drop (test_count rs.length) ∧
    te = (seeded_shuffle seed rs.enum).take (test_count rs.length) ∧
    stratify_ok rs = true := by
  by_cases hs : stratify_ok rs = true
  · rw [train_test_split, if_pos hs] at h
    have hp := Option.some.inj h
    exact ⟨(congrArg Prod.fst hp).symm, (congrArg Prod.snd hp).symm, hs⟩
  · rw [train_test_split, if_neg hs] at h
    cases h

/-- The seeded shuffle is a permutation of the indexed input with no
duplicate entries. -/
theorem seeded_shuffle_perm_nodup (seed : Nat) (rs : List Record) :
    (seeded_shuffle seed rs.enum).Perm rs.enum ∧
    (seeded_shuffle seed rs.enum).Nodup := by
  have hperm : (seeded_shuffle seed rs.enum).Perm rs.enum :=
    List.perm_insertionSort _ _
  have henum : rs.enum.Nodup :=
    List.Nodup.of_map Prod.fst (List.nodup_enum_map_fst rs)
  exact ⟨hperm, hperm.symm.nodup henum⟩

/-- C6: a successful split is deterministic in the records and the seed
(identical inputs reproduce the identical pair), its train and test parts
are disjoint, and together they are a permutation of the indexed input, so
their union is exactly the input. -/
theorem train_test_split_det_partition (seed : Nat) (rs : List Record)
    (tr te : List (Nat × Record))
    (h : train_test_split seed rs = some (tr, te)) :
    (∀ rs2, rs2 = rs → train_test_split seed rs2 = some (tr, te)) ∧
    (∀ p, p ∈ tr → p ∉ te) ∧
    (tr ++ te).Perm rs.enum := by
  obtain ⟨htr, hte, -⟩ := train_test_split_eq seed rs tr te h
  obtain ⟨hperm, hnodup⟩ := seeded_shuffle_perm_nodup seed rs
  refine ⟨fun rs2 h2 => by rw [h2]; exact h, ?_, ?_⟩
  · intro p hp hq
    exact List.disjoint_take_drop hnodup (le_refl _) (hte ▸ hq) (htr ▸ hp)
  · have hsplit : (tr ++ te).Perm (seeded_shuffle seed rs.enum) := by
      rw [htr, hte]
      refine List.Perm.trans List.perm_append_comm ?_
      rw [List.take_append_drop]
    exact hsplit.trans hperm

/-- Witness for C6 at a concrete five-record input and seed 100: the split
succeeds, and the resulting train and test parts are disjoint and together
permute the indexed input. -/
theorem train_test_split_det_partition_witness :
    (∀ p, p ∈ [((2 : Nat), { prop := "Egc", value := 3 : Record }),
        (4, { prop := "Egc", value := 5 }), (1, { prop := "Egc", value := 2 }),
        (3, { prop := "Egc", value := 4 })] →
      p ∉ [((0 : Nat), { prop := "Egc", value := 1 : Record })]) ∧
    ([((2 : Nat), { prop := "Egc", value := 3 : Record }),
        (4, { prop := "Egc", value := 5 }), (1, { prop := "Egc", value := 2 }),
        (3, { prop := "Egc", value := 4 })] ++
      [((0 : Nat), { prop := "Egc", value := 1 : Record })]).Perm
        split_demo_records.enum :=
  (train_test_split_det_partition 100 split_demo_records
    [((2 : Nat), { prop := "Egc", value := 3 : Record }),
      (4, { prop := "Egc", value := 5 }), (1, { prop := "Egc", value := 2 }),
      (3, { prop := "Egc", value := 4 })]
    [((0 : Nat), { prop := "Egc", value := 1 : Record })] (by decide)).2

/-- C9: whenever the input has at least three records and the stratified
80/20 split succeeds, the train part is strictly larger than the test part,
so the assert after splitting holds. -/
theorem train_test_split_train_gt_test (seed : Nat) (rs : List Record)
    (tr te : List (Nat × Record)) (h3 : 3 ≤ rs.length)
    (h : train_test_split seed rs = some (tr, te)) :
    te.length < tr.length := by
  obtain ⟨htr, hte, -⟩ := train_test_split_eq seed rs tr te h
  have hlen : (seeded_shuffle seed rs.enum).length = rs.length := by
    rw [seeded_shuffle, List.length_insertionSort, List.enum_length]
  rw [htr, hte, List.length_take, List.length_drop, hlen]
  rw [test_count]
  omega

/-- Witness for C9 at a concrete three-record input and seed 100: the split
succeeds with one test record and two train records, and one is less than
two. -/
theorem train_test_split_train_gt_test_witness :
    ([((0 : Nat), { prop := "Egb", value := 1 : Record })].length <
      [((2 : Nat), { prop := "Egb", value := 3 : Record }),
        (1, { prop := "Egb", value := 2 })].length) :=
  train_test_split_train_gt_test 100 assert_demo_records
    [((2 : Nat), { prop := "Egb", value := 3 : Record }),
      (1, { prop := "Egb", value := 2 })]
    [((0 : Nat), { prop := "Egb", value := 1 : Record })]
    (by decide) (by decide)

/-- C4, counterexample: the run's featurization is not locally recoverable.
With a parser that fails on the SMILES "QQ", the batch ["CC", "QQ"] contains
a single unparseable record, and featurization of the batch aborts as a
whole (none) instead of dropping the record and continuing; no strict-mode
configuration exists in the code. -/
theorem featurization_abort_counterexample :
    demo_mol_from_smiles (replace_star "QQ") = none ∧
    ("QQ" : String) ∈ ["CC", "QQ"] ∧
    featurize_all demo_mol_from_smiles demo_fingerprint ["CC", "QQ"] = none := by
  refine ⟨by decide, by decide, ?_⟩
  rfl

/-- C4, amended: a FeaturizationError on a single record is not recovered:
whenever any SMILES of the batch fails to parse, the whole featurization
fails (the uncaught exception propagates), for every parser, fingerprint
and batch. -/
theorem featurize_all_none_of_bad_record (molFromSmiles : String → Option Mol)
    (fingerprint : Mol → F) (smiles : List String) (s : String)
    (hmem : s ∈ smiles) (hbad : molFromSmiles (replace_star s) = none) :
    featurize_all molFromSmiles fingerprint smiles = none := by
  induction smiles with
  | nil => cases hmem
  | cons a rest ih =>
    rcases List.mem_cons.mp hmem with h | h
    · subst h
      rw [featurize_all]
      simp [morgan_featurizer, hbad]
    · rw [featurize_all]
      cases hfa : morgan_featurizer molFromSmiles fingerprint a with
      | none => rfl
      | some f => simp [ih h]

/-- Witness for the amended C4 theorem at the concrete batch ["CC", "QQ"]:
"QQ" is in the batch, fails to parse, and the whole featurization is none. -/
theorem featurize_all_none_of_bad_record_witness :
    featurize_all demo_mol_from_smiles demo_fingerprint ["CC", "QQ"] = none :=
  featurize_all_none_of_bad_record demo_mol_from_smiles demo_fingerprint
    ["CC", "QQ"] "QQ" (by decide) (by decide)

/-- C1, counterexample: the fitted scalers are not learned exclusively from
training records. With training records Egc=1 and Egc=3, adding the single
test record Egc=100 changes the fitted scaler for Egc (mean 2 becomes mean
104/3), so the transform depends on test data. -/
theorem scaler_fit_uses_test_records_counterexample :
    group_scaler_dict ["Egc"]
        [{ prop := "Egc", value := 1 }, { prop := "Egc", value := 3 }] [] ≠
      group_scaler_dict ["Egc"]
        [{ prop := "Egc", value := 1 }, { prop := "Egc", value := 3 }]
        [{ prop := "Egc", value := 100 }] := by
  have h1 : group_scaler_dict ["Egc"]
      [{ prop := "Egc", value := 1 }, { prop := "Egc", value := 3 }] [] =
      [("Egc", (2 : Rat))] := by
    rw [group_scaler_dict, prepare_train]
    simp [fit_scaler]
    norm_num
  have h2 : group_scaler_dict ["Egc"]
      [{ prop := "Egc", value := 1 }, { prop := "Egc", value := 3 }]
      [{ prop := "Egc", value := 100 }] = [("Egc", (104/3 : Rat))] := by
    rw [group_scaler_dict, prepare_train]
    simp [fit_scaler]
    norm_num
  rw [h1, h2]
  intro h
  have := List.head_eq_of_cons_eq h
  have h3 : (2 : Rat) = 104/3 := congrArg Prod.snd this
  norm_num at h3

/-- C1, amended: the ScalerDict of a run is fitted on the concatenation of
the group's training and test records (prepare_train is called on
group_data = concat of the two), exactly as if the full group data were the
training split; the same dict is then reused for submodel training and
inference. -/
theorem group_scaler_dict_fit_on_concat (prop_cols : List String)
    (train_data test_data : List Record) :
    group_scaler_dict prop_cols train_data test_data =
      group_scaler_dict prop_cols (train_data ++ test_data) [] := by
  simp [group_scaler_dict, List.filter_append]

/-- C10: the lower bound of the batch-size search dimension,
round(0.25 * MAX_BATCH_SIZE) under Python's round-half-to-even, equals 12,
and every batch size the optimizer proposes inside the declared box lies in
the integer interval from 12 to 50. -/
theorem hp_space_batch_dim_bounds (raw : Int) :
    hp_space_batch_dim.1 = 12 ∧
    12 ≤ propose_in_batch_dim raw ∧ propose_in_batch_dim raw ≤ 50 := by
  have hq : ((1 : Rat)/4 * ((MAX_BATCH_SIZE : Int) : Rat)) = 25/2 := by
    rw [MAX_BATCH_SIZE]; norm_num
  have hlo : pyRound ((1 : Rat)/4 * ((MAX_BATCH_SIZE : Int) : Rat)) = 12 := by
    rw [pyRound, hq]
    have hf : ⌊(25 : Rat)/2⌋ = 12 := by norm_num
    rw [hf]
    norm_num
  have h : hp_space_batch_dim = (12, 50) := by
    rw [hp_space_batch_dim, hlo, MAX_BATCH_SIZE]
  have h1 : propose_in_batch_dim raw = max 12 (min 50 raw) := by
    rw [propose_in_batch_dim, h]
  exact ⟨by rw [h], by rw [h1]; omega, by rw [h1]; omega⟩

end Polygnn
